import Mathlib

/-!
Shallow embedding of the `junctional` TypeScript library (src/result.ts and
the Option class) and verification of its specification.

Modelling conventions:
* JavaScript runtime values are modelled by the inductive type `JSVal`,
  with explicit constructors for the two absence sentinels `undefined` and
  `null`, booleans, numbers (as integers, which covers every numeric value
  the specification mentions), strings, and `Error` objects carrying a
  message.
* A JavaScript method that can throw is modelled as returning
  `Except String α`, the `String` being the message of the thrown `Error`.
* A user-supplied computation passed to `Result.try` / `Result.tryAsync`
  can throw an arbitrary JavaScript value, so it is modelled as a function
  into `Except JSVal JSVal`; an already-settled promise is likewise an
  `Except JSVal JSVal` (fulfilled value or rejection reason).
* The classes store their payloads in `undefined`-initialised fields, so
  `Result` is a pair of `JSVal` fields (`value`, `error`) and `Option` a
  single `JSVal` field (`value`), with `JSVal.undef` standing for an
  unpopulated field exactly as in the source.
-/

deriving instance DecidableEq for Except

namespace Junctional

/-- A JavaScript runtime value, as far as the library observes it. -/
inductive JSVal : Type where
  | undef : JSVal
  | null : JSVal
  | bool : Bool → JSVal
  | num : Int → JSVal
  | str : String → JSVal
  | error : String → JSVal
deriving DecidableEq, Repr

/-- JavaScript string coercion `String(v)` (used by `"..." + this.error`):
`undefined`/`null` print their own names, booleans and numbers their
decimal text, strings pass through, and an `Error` prints as
`Error: message`. -/
def JSVal.toJSString : JSVal → String
  | .undef => "undefined"
  | .null => "null"
  | .bool true => "true"
  | .bool false => "false"
  | .num n => toString n
  | .str s => s
  | .error m => "Error: " ++ m

/-- The `Result` class of src/result.ts: two private fields `value` and
`error`, both initialised to `undefined`; the private constructor populates
exactly one of them, so a field holding `JSVal.undef` is an unpopulated
slot exactly as in the source. -/
structure Result : Type where
  value : JSVal
  error : JSVal
deriving DecidableEq, Repr

/-- `Result.ok(value)`: `new Result({[Result.Ok]: value})`, so the `value`
field is set and the `error` field keeps its `undefined` initial value.
Calling `Result.ok()` with the argument omitted passes `undefined`. -/
def Result.ok (value : JSVal) : Result := ⟨value, JSVal.undef⟩

/-- `Result.err(error)`: `new Result({[Result.Err]: error})`, so the
`error` field is set and the `value` field keeps its `undefined` initial
value. Calling `Result.err()` with the argument omitted passes
`undefined`. -/
def Result.err (error : JSVal) : Result := ⟨JSVal.undef, error⟩

/-- `Result.prototype.match`: dispatches on `this.error !== undefined`. -/
def Result.match {TOut : Type} (r : Result)
    (onOk : JSVal → TOut) (onErr : JSVal → TOut) : TOut :=
  if r.error ≠ JSVal.undef then onErr r.error else onOk r.value

/-- `Result.prototype.or`: returns `this.value` when it is not
`undefined`, else the default. -/
def Result.or (r : Result) (defaultValue : JSVal) : JSVal :=
  if r.value ≠ JSVal.undef then r.value else defaultValue

/-- `Result.prototype.unwrap`: throws
`"Attempted to unwrap an Err value Result. Error: " + this.error` when
`this.value === undefined`, else returns `this.value`. -/
def Result.unwrap (r : Result) : Except String JSVal :=
  if r.value = JSVal.undef then
    Except.error ("Attempted to unwrap an Err value Result. Error: "
      ++ r.error.toJSString)
  else
    Except.ok r.value

/-- `Result.prototype.expect`: throws the caller-supplied message when
`this.value === undefined`, else returns `this.value`. -/
def Result.expect (r : Result) (message : String) : Except String JSVal :=
  if r.value = JSVal.undef then Except.error message else Except.ok r.value

/-- `Result.prototype.unwrapErr`: throws a fixed message when
`this.error === undefined`, else returns `this.error`. -/
def Result.unwrapErr (r : Result) : Except String JSVal :=
  if r.error = JSVal.undef then
    Except.error "Attempted to unwrap error for an Ok value Result."
  else
    Except.ok r.error

/-- `Result.prototype.expectErr`: throws the caller-supplied message when
`this.error === undefined`, else returns `this.error`. -/
def Result.expectErr (r : Result) (message : String) : Except String JSVal :=
  if r.error = JSVal.undef then Except.error message else Except.ok r.error

/-- `Result.prototype.isOk`: `this.error === undefined`. -/
def Result.isOk (r : Result) : Bool := r.error = JSVal.undef

/-- `Result.prototype.isErr`: `this.error !== undefined`. -/
def Result.isErr (r : Result) : Bool := r.error ≠ JSVal.undef

/-- `Result.try(fn, ...args)`: runs `fn(...args)` inside `try`/`catch`,
returning `Result.ok` of a normal return and `Result.err` of a caught
throw. The argument tuple is modelled by an arbitrary type and the
computation by its settled outcome `Except JSVal JSVal`; totality of this
definition is the source's guarantee that `try` itself never raises. -/
def Result.try {TArgs : Type} (fn : TArgs → Except JSVal JSVal)
    (args : TArgs) : Result :=
  match fn args with
  | Except.ok v => Result.ok v
  | Except.error e => Result.err e

/-- `Result.tryAsync(fn, ...args)`: awaits `fn(...args)` inside
`try`/`catch`, returning `Result.ok` of a fulfilment value and
`Result.err` of a rejection reason; the awaited promise is modelled by its
settlement `Except JSVal JSVal`. -/
def Result.tryAsync {TArgs : Type} (fn : TArgs → Except JSVal JSVal)
    (args : TArgs) : Result :=
  match fn args with
  | Except.ok v => Result.ok v
  | Except.error e => Result.err e

/-- `Result.prototype.map`: when `this.error !== undefined`, returns
`Result.err(this.error)`; else returns `Result.try(mapper, this.value)`. -/
def Result.map (r : Result) (mapper : JSVal → Except JSVal JSVal) : Result :=
  if r.error ≠ JSVal.undef then Result.err r.error
  else Result.try mapper r.value

/-- The `Option` class: one private field `value`, set to `undefined` by
the `None` branch of the private constructor and to the given value by the
`Some` branch. -/
structure Option : Type where
  value : JSVal
deriving DecidableEq, Repr

/-- `Option.none()`: `new Option({[Option.None]: null})`, which stores
`undefined`. -/
def Option.none : Option := ⟨JSVal.undef⟩

/-- `Option.some(value)`: throws a fixed message when `value` is
`undefined`, a different fixed message when it is `null`, and otherwise
constructs an Option holding `value`. -/
def Option.some (value : JSVal) : Except String Option :=
  if value = JSVal.undef then
    Except.error "Cannot create a Some Option with an undefined value."
  else if value = JSVal.null then
    Except.error "Cannot create a Some Option with a null value."
  else
    Except.ok ⟨value⟩

/-- `Option.from(value)`: `undefined` and `null` map to `Option.none()`;
any other value is passed to `Option.some`, whose two guards cannot fire
on that branch (lemma `some_of_from` below), so `from` is total exactly as
in the source. -/
def Option.from (value : JSVal) : Option :=
  if value = JSVal.undef then Option.none
  else if value = JSVal.null then Option.none
  else ⟨value⟩

/-- `Option.fromAsync(value)`: `await value` then `Option.from` of the
fulfilment value; a rejection of the awaited promise propagates out of
`fromAsync` unchanged because the `await` is not wrapped in any
`try`/`catch`. The promise is modelled by its settlement. -/
def Option.fromAsync (value : Except JSVal JSVal) : Except JSVal Option :=
  match value with
  | Except.ok v => Except.ok (Option.from v)
  | Except.error r => Except.error r

/-- `Option.prototype.match`: dispatches on `this.value === undefined`. -/
def Option.match {TSomeOut TNoneOut : Type} (o : Option)
    (onSome : JSVal → TSomeOut) (onNone : Unit → TNoneOut) :
    TSomeOut ⊕ TNoneOut :=
  if o.value = JSVal.undef then Sum.inr (onNone ())
  else Sum.inl (onSome o.value)

/-- `Option.prototype.or`: the default when `this.value === undefined`,
else `this.value`. -/
def Option.or (o : Option) (defaultValue : JSVal) : JSVal :=
  if o.value = JSVal.undef then defaultValue else o.value

/-- `Option.prototype.map`: `Option.none()` when `this.value ===
undefined`, else `Option.from(mapper(this.value))`. The claims about `map`
concern only the mapper's return value, so the mapper is modelled as a
total function. -/
def Option.map (o : Option) (mapper : JSVal → JSVal) : Option :=
  if o.value = JSVal.undef then Option.none
  else Option.from (mapper o.value)

/-- `Option.prototype.unwrap`: throws a fixed message when
`this.value === undefined`, else returns `this.value`. -/
def Option.unwrap (o : Option) : Except String JSVal :=
  if o.value = JSVal.undef then
    Except.error "Attempted to unwrap a None value Option."
  else
    Except.ok o.value

/-- `Option.prototype.expect`: throws the caller-supplied message when
`this.value === undefined`, else returns `this.value`. -/
def Option.expect (o : Option) (message : String) : Except String JSVal :=
  if o.value = JSVal.undef then Except.error message else Except.ok o.value

/-- `Option.prototype.unwrapNone`: throws a fixed message when
`this.value !== undefined`, else returns `undefined`. -/
def Option.unwrapNone (o : Option) : Except String JSVal :=
  if o.value ≠ JSVal.undef then
    Except.error "Attempted to unwrap a Some value Option."
  else
    Except.ok JSVal.undef

/-- `Option.prototype.expectNone`: throws the caller-supplied message when
`this.value !== undefined`, else returns `undefined`. -/
def Option.expectNone (o : Option) (message : String) : Except String JSVal :=
  if o.value ≠ JSVal.undef then Except.error message
  else Except.ok JSVal.undef

/-- `Option.prototype.isSome`: `this.value !== undefined`. -/
def Option.isSome (o : Option) : Bool := o.value ≠ JSVal.undef

/-- `Option.prototype.isNone`: `this.value === undefined`. -/
def Option.isNone (o : Option) : Bool := o.value = JSVal.undef

/-- Whether a fallible call returned normally (did not throw). -/
def returnsNormally {α : Type} : Except String α → Bool
  | Except.ok _ => true
  | Except.error _ => false

/-- The spec's example mapper `x => x * 2`, doubling a numeric argument
(its behaviour elsewhere is irrelevant to the claims, which apply it only
to numbers; a non-number is returned unchanged) and never throwing. -/
def doubleMapper : JSVal → Except JSVal JSVal
  | JSVal.num n => Except.ok (JSVal.num (n * 2))
  | v => Except.ok v

/-- The Options reachable through the public constructors and
transformations of the class: `some` (when it returns), `none`, `from`,
`fromAsync` (when the awaited promise fulfills) and `map` of a reachable
Option. -/
inductive Option.Reachable : Option → Prop where
  | viaSome (v : JSVal) (o : Option) :
      Option.some v = Except.ok o → Option.Reachable o
  | viaNone : Option.Reachable Option.none
  | viaFrom (v : JSVal) : Option.Reachable (Option.from v)
  | viaFromAsync (p : Except JSVal JSVal) (o : Option) :
      Option.fromAsync p = Except.ok o → Option.Reachable o
  | viaMap (o : Option) (f : JSVal → JSVal) :
      Option.Reachable o → Option.Reachable (Option.map o f)

/-- On the non-sentinel branch, `Option.from` returns exactly what the
`Option.some` call in its body returns: the guards of `some` cannot
fire there. -/
theorem some_of_from (v : JSVal) (hu : v ≠ JSVal.undef)
    (hn : v ≠ JSVal.null) :
    Option.some v = Except.ok (Option.from v) := by
  simp [Option.some, Option.from, hu, hn]

/-- `Option.from` never stores `null`: both sentinels collapse to
`Option.none`, whose stored field is `undefined`. -/
theorem from_value_ne_null (v : JSVal) :
    (Option.from v).value ≠ JSVal.null := by
  by_cases hu : v = JSVal.undef
  · simp [Option.from, hu, Option.none]
  · by_cases hn : v = JSVal.null
    · simp [Option.from, hu, hn, Option.none]
    · simp [Option.from, hu, hn]

/-- C1: `Result.try(fn, ...args)` never itself raises (it is a total
function into `Result`); a normal return `v` of `fn(...args)` gives
exactly `Result.ok(v)` and a thrown `x` gives exactly `Result.err(x)`,
and `Result.tryAsync` has the same contract for the settlement of an
asynchronous computation: fulfilment gives Ok of the value, rejection
gives Err of the reason, and neither outcome leaks to the caller. -/
theorem try_captures {TArgs : Type} (fn : TArgs → Except JSVal JSVal)
    (args : TArgs) :
    (∀ v, fn args = Except.ok v →
      Result.try fn args = Result.ok v ∧
      Result.tryAsync fn args = Result.ok v) ∧
    (∀ x, fn args = Except.error x →
      Result.try fn args = Result.err x ∧
      Result.tryAsync fn args = Result.err x) := by
  constructor
  · intro v h
    constructor <;> simp [Result.try, Result.tryAsync, h]
  · intro x h
    constructor <;> simp [Result.try, Result.tryAsync, h]

/-- Witness for C1 at the spec's concrete examples: a computation
returning `42` and one throwing the string `"boom"`. -/
theorem try_captures_witness :
    Result.try (fun _ : Unit => Except.ok (JSVal.num 42)) () =
      Result.ok (JSVal.num 42) ∧
    Result.tryAsync (fun _ : Unit => Except.error (JSVal.str "boom")) () =
      Result.err (JSVal.str "boom") :=
  ⟨((try_captures (fun _ : Unit => Except.ok (JSVal.num 42)) ()).1
      (JSVal.num 42) rfl).1,
   ((try_captures (fun _ : Unit => Except.error (JSVal.str "boom")) ()).2
      (JSVal.str "boom") rfl).2⟩

/-- C2 counterexample: the claim quantifies over every error value `e`,
but `isOk` already distinguishes `Result.ok(undefined)` (where it returns
`true`) from `Result.err("e")` (where it returns `false`). -/
theorem ok_undef_distinguishable :
    ¬ ((Result.ok JSVal.undef).isOk = (Result.err (JSVal.str "e")).isOk) := by
  decide

/-- C2 (amended): `Result.ok(undefined)` is indistinguishable from the
Err state built with an omitted (undefined) error payload: it is the very
same stored state as `Result.err(undefined)`, so every public operation
gives the same observable outcome on the two; in particular `unwrap`
raises on it like on an Err. -/
theorem ok_undef_eq_err_undef :
    Result.ok JSVal.undef = Result.err JSVal.undef ∧
    (Result.ok JSVal.undef).unwrap =
      Except.error "Attempted to unwrap an Err value Result. Error: undefined" := by
  constructor
  · rfl
  · decide

/-- C3: `Option.fromAsync` of a rejected computation propagates the
rejection reason unchanged and yields no settled Option, while a
fulfilment with `v` yields exactly `Option.from v`. -/
theorem fromAsync_spec (p : Except JSVal JSVal) :
    (∀ r, p = Except.error r → Option.fromAsync p = Except.error r) ∧
    (∀ v, p = Except.ok v → Option.fromAsync p = Except.ok (Option.from v)) := by
  constructor
  · intro r h
    simp [Option.fromAsync, h]
  · intro v h
    simp [Option.fromAsync, h]

/-- Witness for C3 at the spec's concrete examples: a computation
rejecting with the string `"error"` and one fulfilling with `42`. -/
theorem fromAsync_spec_witness :
    Option.fromAsync (Except.error (JSVal.str "error")) =
      Except.error (JSVal.str "error") ∧
    Option.fromAsync (Except.ok (JSVal.num 42)) =
      Except.ok (Option.from (JSVal.num 42)) :=
  ⟨(fromAsync_spec (Except.error (JSVal.str "error"))).1 (JSVal.str "error") rfl,
   (fromAsync_spec (Except.ok (JSVal.num 42))).2 (JSVal.num 42) rfl⟩

/-- C4 counterexample: the claim quantifies over all values `v`, but at
the absence sentinel `v = undefined`, `Result.ok(v).unwrap()` raises
instead of returning `v`. -/
theorem ok_undef_unwrap_raises :
    ¬ ((Result.ok JSVal.undef).unwrap = Except.ok JSVal.undef) := by
  decide

/-- C4 (amended): for all values `v` other than the absence sentinel
`undefined` — in particular the falsy values `0`, `""` and `false` —
`Result.ok(v).unwrap() === v`, `isOk()` is `true` and `isErr()` is
`false`. -/
theorem ok_roundtrip (v : JSVal) (h : v ≠ JSVal.undef) :
    (Result.ok v).unwrap = Except.ok v ∧
    (Result.ok v).isOk = true ∧
    (Result.ok v).isErr = false := by
  simp [Result.ok, Result.unwrap, Result.isOk, Result.isErr, h]

/-- Witness for C4 at the three falsy values the claim singles out. -/
theorem ok_roundtrip_witness :
    ((Result.ok (JSVal.num 0)).unwrap = Except.ok (JSVal.num 0) ∧
      (Result.ok (JSVal.num 0)).isOk = true ∧
      (Result.ok (JSVal.num 0)).isErr = false) ∧
    ((Result.ok (JSVal.str "")).unwrap = Except.ok (JSVal.str "") ∧
      (Result.ok (JSVal.str "")).isOk = true ∧
      (Result.ok (JSVal.str "")).isErr = false) ∧
    ((Result.ok (JSVal.bool false)).unwrap = Except.ok (JSVal.bool false) ∧
      (Result.ok (JSVal.bool false)).isOk = true ∧
      (Result.ok (JSVal.bool false)).isErr = false) :=
  ⟨ok_roundtrip (JSVal.num 0) (by decide),
   ok_roundtrip (JSVal.str "") (by decide),
   ok_roundtrip (JSVal.bool false) (by decide)⟩

/-- C5 counterexample: the claim quantifies over all error values `e`,
but at the absence sentinel `e = undefined`, `Result.err(e).unwrapErr()`
raises instead of returning `e`. -/
theorem err_undef_unwrapErr_raises :
    ¬ ((Result.err JSVal.undef).unwrapErr = Except.ok JSVal.undef) := by
  decide

/-- C5 (amended): for all error values `e` other than the absence
sentinel `undefined`, `Result.err(e).unwrapErr() === e`, and
`Result.err(e).unwrap()` raises an error whose message is exactly
`"Attempted to unwrap an Err value Result. Error: "` followed by the
stringification of `e` (so in particular it contains it). -/
theorem err_roundtrip (e : JSVal) (h : e ≠ JSVal.undef) :
    (Result.err e).unwrapErr = Except.ok e ∧
    (Result.err e).unwrap = Except.error
      ("Attempted to unwrap an Err value Result. Error: " ++ e.toJSString) := by
  simp [Result.err, Result.unwrapErr, Result.unwrap, h]

/-- Witness for C5 at the concrete error value `"error"`. -/
theorem err_roundtrip_witness :
    (Result.err (JSVal.str "error")).unwrapErr =
      Except.ok (JSVal.str "error") ∧
    (Result.err (JSVal.str "error")).unwrap = Except.error
      ("Attempted to unwrap an Err value Result. Error: "
        ++ (JSVal.str "error").toJSString) :=
  err_roundtrip (JSVal.str "error") (by decide)

/-- C6: `Option.some(undefined)` and `Option.some(null)` each raise their
own fixed construction-time message, and for every other value `v`,
`Option.some(v)` returns a present Option whose `unwrap()` is `v`. -/
theorem some_validation :
    Option.some JSVal.undef =
      Except.error "Cannot create a Some Option with an undefined value." ∧
    Option.some JSVal.null =
      Except.error "Cannot create a Some Option with a null value." ∧
    ∀ v, v ≠ JSVal.undef → v ≠ JSVal.null →
      ∃ o, Option.some v = Except.ok o ∧
        o.isSome = true ∧ o.unwrap = Except.ok v := by
  refine ⟨by decide, by decide, ?_⟩
  intro v hu hn
  refine ⟨⟨v⟩, ?_, ?_, ?_⟩
  · simp [Option.some, hu, hn]
  · simp [Option.isSome, hu]
  · simp [Option.unwrap, hu]

/-- Witness for C6 at the spec's concrete example `Option.some(42)`. -/
theorem some_validation_witness :
    ∃ o, Option.some (JSVal.num 42) = Except.ok o ∧
      o.isSome = true ∧ o.unwrap = Except.ok (JSVal.num 42) :=
  some_validation.2.2 (JSVal.num 42) (by decide) (by decide)

/-- C7: on an Err Result holding error `e` (occupied error slot), `map`
returns a new Err Result carrying `e` unchanged; on an Ok Result
(unoccupied error slot, value `v`), `map mapper` equals
`Result.try(mapper, v)`, so a mapper returning `w` gives `Result.ok(w)`
and a mapper throwing `x` gives `Result.err(x)`; in particular
`Result.ok(42).map(x => x * 2).unwrap() === 84` and
`Result.err("e").map(x => x * 2)` is an Err with `unwrapErr() === "e"`. -/
theorem map_spec (r : Result) (mapper : JSVal → Except JSVal JSVal) :
    (∀ e, r.error = e → e ≠ JSVal.undef → Result.map r mapper = Result.err e) ∧
    (r.error = JSVal.undef →
      Result.map r mapper = Result.try mapper r.value ∧
      (∀ w, mapper r.value = Except.ok w → Result.map r mapper = Result.ok w) ∧
      (∀ x, mapper r.value = Except.error x →
        Result.map r mapper = Result.err x)) ∧
    (Result.map (Result.ok (JSVal.num 42)) doubleMapper).unwrap =
      Except.ok (JSVal.num 84) ∧
    (Result.map (Result.err (JSVal.str "e")) doubleMapper).isErr = true ∧
    (Result.map (Result.err (JSVal.str "e")) doubleMapper).unwrapErr =
      Except.ok (JSVal.str "e") := by
  refine ⟨?_, ?_, by decide, by decide, by decide⟩
  · intro e he hne
    subst he
    simp [Result.map, hne]
  · intro he
    refine ⟨by simp [Result.map, he], ?_, ?_⟩
    · intro w hw
      simp [Result.map, Result.try, he, hw]
    · intro x hx
      simp [Result.map, Result.try, he, hx]

/-- Witness for C7 at the spec's concrete Err example, discharging the
occupied-error-slot hypotheses at `e = "e"`. -/
theorem map_spec_witness :
    Result.map (Result.err (JSVal.str "e")) doubleMapper =
      Result.err (JSVal.str "e") :=
  (map_spec (Result.err (JSVal.str "e")) doubleMapper).1
    (JSVal.str "e") rfl (by decide)

/-- C8: `map` on an absent Option returns an absent Option for every
mapper (so the mapper is never consulted); on a present Option holding
`v` it returns exactly `Option.from (mapper v)`; and no mapper can make
`map` produce an Option storing an absence sentinel as a present value:
the stored field is never `null`, and whenever the outcome is present
(`isSome`) its stored value is neither `undefined` nor `null`. -/
theorem option_map_spec (o : Option) (mapper : JSVal → JSVal) :
    (o.value = JSVal.undef →
      ∀ g : JSVal → JSVal, Option.map o mapper = Option.none ∧
        Option.map o mapper = Option.map o g) ∧
    (o.value ≠ JSVal.undef →
      Option.map o mapper = Option.from (mapper o.value)) ∧
    (Option.map o mapper).value ≠ JSVal.null ∧
    ((Option.map o mapper).isSome = true →
      (Option.map o mapper).value ≠ JSVal.undef ∧
      (Option.map o mapper).value ≠ JSVal.null) := by
  by_cases h : o.value = JSVal.undef
  · refine ⟨fun _ g => ⟨by simp [Option.map, h], by simp [Option.map, h]⟩,
      fun hc => absurd h hc, ?_, ?_⟩
    · simp [Option.map, h, Option.none]
    · simp [Option.map, h, Option.isSome, Option.none]
  · refine ⟨fun hc => absurd hc h, fun _ => by simp [Option.map, h], ?_, ?_⟩
    · simpa [Option.map, h] using from_value_ne_null (mapper o.value)
    · intro hs
      refine ⟨?_, by simpa [Option.map, h] using from_value_ne_null (mapper o.value)⟩
      simp only [Option.isSome, decide_eq_true_eq] at hs
      exact hs

/-- Witness for C8: a present Option mapped through a mapper that
returns `null` collapses to the absent Option, discharging the
present-Option hypothesis at `Option.from(1)`. -/
theorem option_map_spec_witness :
    Option.map (Option.from (JSVal.num 1)) (fun _ => JSVal.null) =
      Option.from JSVal.null := by
  have h := (option_map_spec (Option.from (JSVal.num 1))
    (fun _ => JSVal.null)).2.1 (by decide)
  simpa using h

/-- C9: `Result.err(undefined)` — the error factory with an omitted
payload — satisfies `isErr() === false` and `isOk() === true`, yet both
`unwrap()` and `unwrapErr()` raise: it is not observably an Err and not a
usable Ok either. -/
theorem err_undef_pathology :
    (Result.err JSVal.undef).isErr = false ∧
    (Result.err JSVal.undef).isOk = true ∧
    (Result.err JSVal.undef).unwrap = Except.error
      "Attempted to unwrap an Err value Result. Error: undefined" ∧
    (Result.err JSVal.undef).unwrapErr = Except.error
      "Attempted to unwrap error for an Ok value Result." := by
  decide

/-- C10: every Option reachable through the public constructors and
transformations never stores `null`; moreover `isSome()` is `true`
exactly when `unwrap()` returns without raising and `isNone()` is `true`
exactly when `unwrapNone()` returns without raising, so the predicates
and the unwrap family never disagree. -/
theorem option_invariant (o : Option) (h : Option.Reachable o) :
    o.value ≠ JSVal.null ∧
    (o.isSome = true ↔ returnsNormally o.unwrap = true) ∧
    (o.isNone = true ↔ returnsNormally o.unwrapNone = true) := by
  refine ⟨?_, ?_, ?_⟩
  · induction h with
    | viaSome v o hv =>
      by_cases hu : v = JSVal.undef
      · simp [Option.some, hu] at hv
      · by_cases hn : v = JSVal.null
        · simp [Option.some, hu, hn] at hv
        · simp only [Option.some, hu, hn, if_false, Except.ok.injEq] at hv
          rw [← hv]
          exact hn
    | viaNone => simp [Option.none]
    | viaFrom v => exact from_value_ne_null v
    | viaFromAsync p o hp =>
      cases p with
      | error r => simp [Option.fromAsync] at hp
      | ok v =>
        simp only [Option.fromAsync, Except.ok.injEq] at hp
        rw [← hp]
        exact from_value_ne_null v
    | viaMap o f ih =>
      by_cases hu : o.value = JSVal.undef
      · simp [Option.map, hu, Option.none]
      · simpa [Option.map, hu] using from_value_ne_null (f o.value)
  · by_cases hu : o.value = JSVal.undef <;>
      simp [Option.isSome, Option.unwrap, returnsNormally, hu]
  · by_cases hu : o.value = JSVal.undef <;>
      simp [Option.isNone, Option.unwrapNone, returnsNormally, hu]

/-- Witness for C10 at the reachable Option `Option.none`. -/
theorem option_invariant_witness :
    Option.none.value ≠ JSVal.null ∧
    (Option.none.isSome = true ↔ returnsNormally Option.none.unwrap = true) ∧
    (Option.none.isNone = true ↔
      returnsNormally Option.none.unwrapNone = true) :=
  option_invariant Option.none Option.Reachable.viaNone

end Junctional
